import Mathlib

/-!
Formal model of the browser scripts in src/js/main.js (sj_website repository).

The file contains two concatenated script variants:
variant 1 (mobile menu with aria attributes, sticky header at threshold 100,
smooth anchor scrolling via a delegated click handler) and variant 2
(scroll reveal, parallax, header at threshold 50, mobile menu with a body
scroll lock, gallery lightbox with keyboard and touch navigation, filmstrip
buttons, smooth anchor scrolling via per-link handlers).

Each controller is shallowly embedded: DOM reads become explicit parameters,
DOM writes become returned values, JavaScript numbers become rationals
(integers for the lightbox index arithmetic), and the JavaScript remainder
operator is modelled by truncated division.
-/

namespace SjWebsite

/-- Semantics of the JavaScript remainder operator on integers: the remainder
paired with division truncated toward zero, so it carries the sign of the
dividend. -/
def jsRem (a b : ℤ) : ℤ := a - b * (a.tdiv b)

theorem jsRem_eq_emod (a b : ℤ) (ha : 0 ≤ a) (hb : 0 < b) : jsRem a b = a % b := by
  rw [jsRem, Int.tdiv_eq_ediv ha hb.le, Int.emod_def]

/-- Lightbox controller, function showNextImage:
currentIndex = (currentIndex + 1) % images.length. -/
def showNextImage (n i : ℤ) : ℤ := jsRem (i + 1) n

/-- Lightbox controller, function showPrevImage:
currentIndex = (currentIndex - 1 + images.length) % images.length. -/
def showPrevImage (n i : ℤ) : ℤ := jsRem (i - 1 + n) n

/-- A navigation request on an open lightbox: the next control (click,
ArrowRight) or the previous control (click, ArrowLeft). -/
inductive NavOp where
  | next
  | prev
deriving DecidableEq

/-- Effect of one navigation request on the current index. -/
def navStep (n i : ℤ) : NavOp → ℤ
  | NavOp.next => showNextImage n i
  | NavOp.prev => showPrevImage n i

/-- Effect of a sequence of navigation requests on the current index. -/
def navRun (n i : ℤ) : List NavOp → ℤ
  | [] => i
  | op :: ops => navRun n (navStep n i op) ops

theorem showNextImage_range (n i : ℤ) (hn : 0 < n) (hi : 0 ≤ i) :
    0 ≤ showNextImage n i ∧ showNextImage n i < n := by
  rw [showNextImage, jsRem_eq_emod (i + 1) n (by omega) hn]
  exact ⟨Int.emod_nonneg _ (by omega), Int.emod_lt_of_pos _ hn⟩

theorem showPrevImage_range (n i : ℤ) (hn : 0 < n) (hi : 0 ≤ i) :
    0 ≤ showPrevImage n i ∧ showPrevImage n i < n := by
  rw [showPrevImage, jsRem_eq_emod (i - 1 + n) n (by omega) hn]
  exact ⟨Int.emod_nonneg _ (by omega), Int.emod_lt_of_pos _ hn⟩

theorem navRun_range (n : ℤ) (ops : List NavOp) :
    ∀ i : ℤ, 0 < n → 0 ≤ i → i < n →
      0 ≤ navRun n i ops ∧ navRun n i ops < n := by
  induction ops with
  | nil => intro i _ hi0 hin; exact ⟨hi0, hin⟩
  | cons op ops ih =>
    intro i hn hi0 hin
    have hstep : 0 ≤ navStep n i op ∧ navStep n i op < n := by
      cases op with
      | next => exact showNextImage_range n i hn hi0
      | prev => exact showPrevImage_range n i hn hi0
    exact ih (navStep n i op) hn hstep.1 hstep.2

/-- C3: for a gallery of n ≥ 1 images the lightbox index stays in [0, n-1]
under every sequence of next/previous operations; next at index n-1 wraps to
0, previous at index 0 wraps to n-1, and with n = 5 starting at index 3 two
presses of next end at index 0. -/
theorem c3_gallery_index_invariant (n i : ℤ) (ops : List NavOp)
    (hn : 1 ≤ n) (hi0 : 0 ≤ i) (hin : i < n) :
    (0 ≤ navRun n i ops ∧ navRun n i ops < n) ∧
    showNextImage n (n - 1) = 0 ∧
    showPrevImage n 0 = n - 1 ∧
    navRun 5 3 [NavOp.next, NavOp.next] = 0 := by
  refine ⟨navRun_range n ops i (by omega) hi0 hin, ?_, ?_, by decide⟩
  · rw [showNextImage, jsRem_eq_emod (n - 1 + 1) n (by omega) (by omega)]
    simp
  · rw [showPrevImage, jsRem_eq_emod (0 - 1 + n) n (by omega) (by omega)]
    rw [Int.emod_eq_of_lt (by omega) (by omega)]
    omega

/-- Witness for C3 at n = 5, i = 3, operations [next, next]. -/
theorem c3_gallery_index_invariant_witness :
    (1 ≤ (5 : ℤ)) ∧ (0 ≤ (3 : ℤ)) ∧ ((3 : ℤ) < 5) ∧
    ((0 ≤ navRun 5 3 [NavOp.next, NavOp.next] ∧ navRun 5 3 [NavOp.next, NavOp.next] < 5) ∧
      showNextImage 5 (5 - 1) = 0 ∧
      showPrevImage 5 0 = 5 - 1 ∧
      navRun 5 3 [NavOp.next, NavOp.next] = 0) :=
  ⟨by norm_num, by norm_num, by norm_num,
    c3_gallery_index_invariant 5 3 [NavOp.next, NavOp.next]
      (by norm_num) (by norm_num) (by norm_num)⟩

/-- Semantics of Math.abs on the rationals that model JavaScript numbers. -/
def jsAbs (x : ℚ) : ℚ := if x < 0 then -x else x

/-- Lightbox controller, function handleSwipe: with diff = touchEndX -
touchStartX, if Math.abs(diff) exceeds the 50px threshold then a positive
diff runs showPrevImage and a negative one runs showNextImage; otherwise the
index is unchanged. Touch coordinates are rationals, the index an integer. -/
def handleSwipe (n i : ℤ) (touchStartX touchEndX : ℚ) : ℤ :=
  let diff := touchEndX - touchStartX
  if 50 < jsAbs diff then
    if 0 < diff then showPrevImage n i else showNextImage n i
  else i

/-- C4 counterexample: a rightward gesture of exactly 50px (touchStartX = 0,
touchEndX = 50) satisfies the claimed condition d >= 50, yet the code leaves
the index unchanged (the comparison is strict), so the transition is not the
one produced by showPrevImage. -/
theorem c4_swipe_threshold_counterexample :
    (50 : ℚ) - 0 ≥ 50 ∧
    handleSwipe 5 2 0 50 = 2 ∧
    showPrevImage 5 2 = 1 ∧
    handleSwipe 5 2 0 50 ≠ showPrevImage 5 2 := by
  refine ⟨by norm_num, ?_, by decide, ?_⟩
  · norm_num [handleSwipe, jsAbs]
  · norm_num [handleSwipe, jsAbs]
    decide

/-- C4 amended: the thresholds are strict. A leftward swipe of more than 50px
(d < -50) acts as showNextImage, a rightward swipe of more than 50px (d > 50)
acts as showPrevImage, and a delta of magnitude at most 50 (the boundary
included) leaves the index unchanged. -/
theorem c4_swipe_transitions (n i : ℤ) (ts te : ℚ) :
    handleSwipe n i ts te =
      if 50 < te - ts then showPrevImage n i
      else if te - ts < -50 then showNextImage n i
      else i := by
  simp only [handleSwipe, jsAbs]
  split_ifs <;> first | rfl | linarith

/-- Result of one activation of a same-page anchor link: whether default
navigation was suppressed, the resulting menu-open flag, and the requested
smooth-scroll destination when one was issued. -/
structure AnchorResult where
  preventDefault : Bool
  menuOpen : Bool
  scrollTo : Option ℚ
deriving DecidableEq

/-- Variant 1, function handleAnchorClick: href is the matched link attribute
(none models a null getAttribute result), targetTop the document.querySelector
result as the target boundingClientRect top (none when the target is absent).
When the href is truthy, not "#", and the target exists, the handler prevents
default, removes the menu-open class, and scrolls to the target top plus
scrollY minus the header height. -/
def handleAnchorClick (menuOpen : Bool) (scrollY headerHeight : ℚ)
    (href : Option String) (targetTop : Option ℚ) : AnchorResult :=
  match href with
  | none => ⟨false, menuOpen, none⟩
  | some targetId =>
    if targetId = "" ∨ targetId = "#" then ⟨false, menuOpen, none⟩
    else
      match targetTop with
      | some top => ⟨true, false, some (top + scrollY - headerHeight)⟩
      | none => ⟨false, menuOpen, none⟩

/-- Variant 2, the per-link click handler installed by initSmoothScroll: same
guards, but the header lookup is optional (headerHeight.getD 0 models the
optional-chaining with the fallback 0) and the mobile-menu state is never
touched. -/
def smoothScrollClick (menuOpen : Bool) (scrollY : ℚ) (headerHeight : Option ℚ)
    (href : Option String) (targetTop : Option ℚ) : AnchorResult :=
  match href with
  | none => ⟨false, menuOpen, none⟩
  | some h =>
    if h = "" ∨ h = "#" then ⟨false, menuOpen, none⟩
    else
      match targetTop with
      | some top => ⟨true, menuOpen, some (top + scrollY - headerHeight.getD 0)⟩
      | none => ⟨false, menuOpen, none⟩

/-- C5 counterexample: the variant-2 handler fires on an existing target
(default is suppressed) while the mobile menu is open, yet the menu-open flag
is still true afterwards, against the claim that the menu is closed. -/
theorem c5_menu_close_counterexample :
    (smoothScrollClick true 0 (some 80) (some "#contact") (some 500)).preventDefault = true ∧
    (smoothScrollClick true 0 (some 80) (some "#contact") (some 500)).menuOpen = true := by
  constructor <;> rfl

/-- C5 amended: on a same-page anchor link with a nonempty href other than
"#" whose target exists, both handlers suppress default navigation and request
a scroll to the target absolute top (rect top + scrollY) minus the header
height; the variant-1 handler additionally closes the mobile menu, while the
variant-2 handler leaves the menu state untouched. -/
theorem c5_anchor_scroll (menuOpen : Bool) (scrollY headerHeight : ℚ)
    (hh : Option ℚ) (top : ℚ) (href : String)
    (h1 : href ≠ "") (h2 : href ≠ "#") :
    handleAnchorClick menuOpen scrollY headerHeight (some href) (some top) =
      ⟨true, false, some (top + scrollY - headerHeight)⟩ ∧
    smoothScrollClick menuOpen scrollY hh (some href) (some top) =
      ⟨true, menuOpen, some (top + scrollY - hh.getD 0)⟩ := by
  constructor
  · simp [handleAnchorClick, h1, h2]
  · simp [smoothScrollClick, h1, h2]

/-- Witness for C5 at href = "#about", rect top 500, scrollY 100, header
height 64, with the menu open. -/
theorem c5_anchor_scroll_witness :
    ("#about" ≠ "") ∧ ("#about" ≠ "#") ∧
    (handleAnchorClick true 100 64 (some "#about") (some 500) =
        ⟨true, false, some (500 + 100 - 64)⟩ ∧
      smoothScrollClick true 100 (some 64) (some "#about") (some 500) =
        ⟨true, true, some (500 + 100 - (some (64 : ℚ)).getD 0)⟩) :=
  ⟨by decide, by decide,
    c5_anchor_scroll true 100 64 (some 64) 500 "#about" (by decide) (by decide)⟩

/-- C6: when the anchor target does not exist, both handlers perform no
scroll request, do not suppress default navigation, leave the menu state
unchanged, and are total (no exception), whatever the href value. -/
theorem c6_missing_target_noop (menuOpen : Bool) (scrollY headerHeight : ℚ)
    (hh : Option ℚ) (href : Option String) :
    handleAnchorClick menuOpen scrollY headerHeight href none =
      ⟨false, menuOpen, none⟩ ∧
    smoothScrollClick menuOpen scrollY hh href none =
      ⟨false, menuOpen, none⟩ := by
  constructor <;>
    · cases href with
      | none => rfl
      | some h =>
        simp only [handleAnchorClick, smoothScrollClick]
        split_ifs <;> rfl

/-- Shared page state touched by the variant-2 mobile-menu and lightbox
controllers: the two active classes, the lightbox index, and
document.body.style.overflow as the scroll lock. -/
structure UIState where
  menuToggleActive : Bool
  mobileMenuActive : Bool
  lightboxActive : Bool
  lightboxIndex : ℤ
  bodyOverflow : String
deriving DecidableEq

/-- Mobile-menu controller, function toggleMenu: flips both active classes and
sets the overflow lock from the menu state read before the flip. -/
def toggleMenu (s : UIState) : UIState :=
  { s with
    menuToggleActive := !s.menuToggleActive,
    mobileMenuActive := !s.mobileMenuActive,
    bodyOverflow := if s.mobileMenuActive then "" else "hidden" }

/-- Mobile-menu controller, function closeMenu: drops both active classes and
unconditionally clears the overflow lock. -/
def closeMenu (s : UIState) : UIState :=
  { s with menuToggleActive := false, mobileMenuActive := false, bodyOverflow := "" }

/-- Lightbox controller, function openLightbox: records the index, activates
the overlay, and sets the overflow lock. -/
def openLightbox (i : ℤ) (s : UIState) : UIState :=
  { s with lightboxActive := true, lightboxIndex := i, bodyOverflow := "hidden" }

/-- Lightbox controller, function closeLightbox: deactivates the overlay and
unconditionally clears the overflow lock. -/
def closeLightbox (s : UIState) : UIState :=
  { s with lightboxActive := false, bodyOverflow := "" }

/-- C7: in any state where both the mobile menu and the lightbox are open and
the shared scroll lock is set, closing either one clears the lock while the
other remains open; neither closeMenu nor closeLightbox consults the other
controller before clearing it. -/
theorem c7_scroll_lock_not_refcounted (s : UIState)
    (hm : s.mobileMenuActive = true) (hl : s.lightboxActive = true)
    (_ho : s.bodyOverflow = "hidden") :
    ((closeMenu s).bodyOverflow = "" ∧ (closeMenu s).lightboxActive = true) ∧
    ((closeLightbox s).bodyOverflow = "" ∧ (closeLightbox s).mobileMenuActive = true) :=
  ⟨⟨rfl, hl⟩, ⟨rfl, hm⟩⟩

/-- Witness for C7 at the concrete state with menu and lightbox both open. -/
theorem c7_scroll_lock_witness :
    ((closeMenu ⟨true, true, true, 0, "hidden"⟩).bodyOverflow = "" ∧
      (closeMenu ⟨true, true, true, 0, "hidden"⟩).lightboxActive = true) ∧
    ((closeLightbox ⟨true, true, true, 0, "hidden"⟩).bodyOverflow = "" ∧
      (closeLightbox ⟨true, true, true, 0, "hidden"⟩).mobileMenuActive = true) :=
  c7_scroll_lock_not_refcounted ⟨true, true, true, 0, "hidden"⟩ rfl rfl rfl

/-- One intersection-observer entry for a reveal element: the isIntersecting
flag, the boundingClientRect top (viewport coordinates), and whether the
visible class is currently present. -/
structure RevealEntry where
  isIntersecting : Bool
  top : ℚ
  visible : Bool
deriving DecidableEq

/-- Observer callback of initScrollReveal for one entry: intersecting adds the
visible class; otherwise the class is removed exactly when rect.top > 0, and
kept as it was otherwise. Returns the new presence of the visible class. -/
def revealStep (e : RevealEntry) : Bool :=
  if e.isIntersecting then true
  else if 0 < e.top then false
  else e.visible

/-- C2 counterexample: the re-hide direction is reversed. A non-intersecting
entry whose top edge is below the viewport top (top = 120 > 0) loses the
visible class although the claim says it must be left visible, and a
non-intersecting entry whose top edge is above the viewport top (top = -120
< 0) keeps the class although the claim says it must lose it. -/
theorem c2_rehide_direction_counterexample :
    ¬ ((120 : ℚ) < 0) ∧ revealStep ⟨false, 120, true⟩ = false ∧
    ((-120 : ℚ) < 0) ∧ revealStep ⟨false, -120, true⟩ = true := by
  refine ⟨by norm_num, ?_, by norm_num, ?_⟩ <;> norm_num [revealStep]

/-- C2 amended: on each observer update the visible class ends up present iff
the entry intersects, or it does not intersect but its top edge is at or above
the viewport top (top ≤ 0) and the class was already present; the class is
removed exactly on non-intersecting entries with top > 0 (the element sits
below the viewport top after scrolling back up). -/
theorem c2_reveal_visibility (e : RevealEntry) :
    revealStep e = true ↔
      (e.isIntersecting = true ∨ (¬ 0 < e.top ∧ e.visible = true)) := by
  unfold revealStep
  split_ifs with h1 h2
  · simp [h1]
  · simp [h1, h2]
  · simp [h1, h2]

/-- One element observed by the variant-2 data-parallax controller: the parsed
speed attribute (none when missing or not parsing to a number), the current
boundingClientRect top, and the element height. -/
structure ParallaxElement where
  speedAttr : Option ℚ
  top : ℚ
  height : ℚ
deriving DecidableEq

/-- JS expression parseFloat(el.dataset.parallax) || 0.3: a missing or
non-numeric attribute falls back to 0.3, and so does a parsed 0, because 0 is
falsy. -/
def parallaxSpeed (attr : Option ℚ) : ℚ :=
  match attr with
  | none => 0.3
  | some v => if v = 0 then 0.3 else v

/-- Parallax controller, function updateParallax, effect on one element: with
elementTop = rect.top + scrollY, writes translation (scrollY - elementTop) *
speed when scrollY < elementTop + height + 200, and writes nothing
otherwise. -/
def updateParallax (scrollY : ℚ) (el : ParallaxElement) : Option ℚ :=
  let speed := parallaxSpeed el.speedAttr
  let elementTop := el.top + scrollY
  if scrollY < elementTop + el.height + 200 then
    some ((scrollY - elementTop) * speed)
  else none

/-- Claim-side predicate, following the words of the specification: the
element is within 200px of a viewport of the given height (coordinates
relative to the viewport top). -/
def specParallaxNearViewport (viewportHeight : ℚ) (el : ParallaxElement) : Prop :=
  -200 ≤ el.top + el.height ∧ el.top ≤ viewportHeight + 200

/-- C8 counterexample: an element 1200px below an 800px viewport (rect top
2000) is not within 200px of the viewport, yet the code writes a transform to
it; moreover its speed attribute parses to the number 0, for which the claim
prescribes translation (0 - 2000) * 0 = 0, but the code falls back to 0.3 and
writes -600. -/
theorem c8_parallax_guard_counterexample :
    ¬ specParallaxNearViewport 800 ⟨some 0, 2000, 100⟩ ∧
    updateParallax 0 ⟨some 0, 2000, 100⟩ = some (-600) ∧
    ((0 : ℚ) - (2000 + 0)) * 0 = 0 := by
  refine ⟨?_, ?_, by norm_num⟩
  · norm_num [specParallaxNearViewport]
  · norm_num [updateParallax, parallaxSpeed]

/-- C8 amended: the written translation equals (scrollY - elementTop) * speed
= (-rect.top) * speed, with speed falling back to 0.3 when the attribute is
missing, non-numeric, or parses to 0; the write is skipped exactly when the
element bottom lies 200px or more above the viewport top (rect.top + height
≤ -200), so elements arbitrarily far below the viewport are always written. -/
theorem c8_parallax_update (scrollY : ℚ) (el : ParallaxElement) :
    updateParallax scrollY el =
      if -200 < el.top + el.height then
        some ((-el.top) * parallaxSpeed el.speedAttr)
      else none := by
  have hiff : scrollY < el.top + scrollY + el.height + 200 ↔
      -200 < el.top + el.height := by
    constructor <;> intro h <;> linarith
  show (if scrollY < el.top + scrollY + el.height + 200 then
      some ((scrollY - (el.top + scrollY)) * parallaxSpeed el.speedAttr)
    else none) = _
  by_cases h : -200 < el.top + el.height
  · rw [if_pos (hiff.mpr h), if_pos h]
    congr 1
    ring
  · rw [if_neg (fun hc => h (hiff.mp hc)), if_neg h]

/-- Semantics of classList.add: appends the class when not already present. -/
def classListAdd (cs : List String) (c : String) : List String :=
  if c ∈ cs then cs else cs ++ [c]

/-- Semantics of classList.remove: removes every occurrence of the class. -/
def classListRemove (cs : List String) (c : String) : List String :=
  cs.filter (fun x => x ≠ c)

theorem classListAdd_mem (cs : List String) (c a : String) :
    a ∈ classListAdd cs c ↔ a = c ∨ a ∈ cs := by
  unfold classListAdd
  split_ifs with h
  · constructor
    · exact Or.inr
    · rintro (rfl | ha)
      · exact h
      · exact ha
  · simp [List.mem_append, or_comm]

theorem classListRemove_mem (cs : List String) (c a : String) :
    a ∈ classListRemove cs c ↔ a ∈ cs ∧ a ≠ c := by
  simp [classListRemove]

/-- Variant 1, function handleScroll: adds the scrolled class to the header
when window.scrollY > 100 and removes it otherwise. -/
def handleScroll (scrollY : ℚ) (headerClasses : List String) : List String :=
  if 100 < scrollY then classListAdd headerClasses "header--scrolled"
  else classListRemove headerClasses "header--scrolled"

/-- Variant 2, function updateHeader: same recomputation with threshold 50. -/
def updateHeader (scrollY : ℚ) (headerClasses : List String) : List String :=
  if 50 < scrollY then classListAdd headerClasses "header--scrolled"
  else classListRemove headerClasses "header--scrolled"

/-- C9: after either header recomputation the scrolled class is present iff
the scroll offset strictly exceeds the threshold of that variant (100 for
handleScroll, 50 for updateHeader); at the threshold itself it is absent. -/
theorem c9_header_scrolled_iff (scrollY : ℚ) (cs1 cs2 : List String) :
    ("header--scrolled" ∈ handleScroll scrollY cs1 ↔ 100 < scrollY) ∧
    ("header--scrolled" ∈ updateHeader scrollY cs2 ↔ 50 < scrollY) ∧
    "header--scrolled" ∉ handleScroll 100 cs1 ∧
    "header--scrolled" ∉ updateHeader 50 cs2 := by
  refine ⟨?_, ?_, ?_, ?_⟩
  · unfold handleScroll
    split_ifs with h <;> simp [classListAdd_mem, classListRemove_mem, h]
  · unfold updateHeader
    split_ifs with h <;> simp [classListAdd_mem, classListRemove_mem, h]
  · unfold handleScroll
    rw [if_neg (by norm_num)]
    simp [classListRemove_mem]
  · unfold updateHeader
    rw [if_neg (by norm_num)]
    simp [classListRemove_mem]

/-- Geometry of the filmstrip read by updateButtons: scrollLeft, scrollWidth
and clientWidth. -/
structure FilmstripGeom where
  scrollLeft : ℚ
  scrollWidth : ℚ
  clientWidth : ℚ
deriving DecidableEq

/-- Disabled flags of the two filmstrip navigation buttons. -/
structure NavButtons where
  prevDisabled : Bool
  nextDisabled : Bool
deriving DecidableEq

/-- Filmstrip controller, function updateButtons: with maxScroll =
scrollWidth - clientWidth, the prev button is disabled when scrollLeft <= 1
and the next button when scrollLeft >= maxScroll - 1. -/
def updateButtons (g : FilmstripGeom) : NavButtons :=
  let maxScroll := g.scrollWidth - g.clientWidth
  ⟨decide (g.scrollLeft ≤ 1), decide (maxScroll - 1 ≤ g.scrollLeft)⟩

/-- Events on which initGalleryNav re-runs updateButtons: a scroll of the
strip, a window resize, and the delayed post-init check. -/
inductive PageEvent where
  | stripScroll
  | windowResize
  | delayedCheck
deriving DecidableEq

/-- Dispatch of the handlers installed by initGalleryNav: each of the three
events recomputes the button state from the current geometry, ignoring the
previous button state. -/
def galleryNavStep (g : FilmstripGeom) (_b : NavButtons) : PageEvent → NavButtons
  | PageEvent.stripScroll => updateButtons g
  | PageEvent.windowResize => updateButtons g
  | PageEvent.delayedCheck => updateButtons g

/-- C10: after any filmstrip recomputation the prev button is disabled iff the
offset is at most 1px from the start and the next button iff it is at most 1px
from the maximum extent; a window resize alone recomputes both from the
current geometry, with no scroll event needed. -/
theorem c10_filmstrip_buttons (g : FilmstripGeom) (b : NavButtons) (e : PageEvent) :
    galleryNavStep g b e = updateButtons g ∧
    ((updateButtons g).prevDisabled = true ↔ g.scrollLeft ≤ 1) ∧
    ((updateButtons g).nextDisabled = true ↔
      g.scrollWidth - g.clientWidth - g.scrollLeft ≤ 1) := by
  refine ⟨by cases e <;> rfl, by simp [updateButtons], ?_⟩
  simp only [updateButtons, decide_eq_true_eq]
  constructor <;> intro h <;> linarith

/-- Function names declared inside the variant-2 IIFE and hoisted into its
scope (the two initParallax declarations contribute the one name). -/
def definedFunctions : List String :=
  ["init", "initScrollReveal", "initParallax", "initHeader", "initMobileMenu",
   "initLightbox", "initSmoothScroll", "initGalleryNav"]

/-- The calls in the body of the variant-2 init function, in source order. -/
def initCallSequence : List String :=
  ["initScrollReveal", "initParallax", "initHeader", "initMobileMenu",
   "initFilmstripLightbox", "initGalleryNav", "initSmoothScroll"]

/-- Strict-mode call semantics for the init body: run the calls in order; a
call to a name with no definition in scope raises a ReferenceError, recorded
in the second component, and the calls after it never run. The first
component lists the initializer calls that did run. -/
def runCalls (defined : List String) : List String → List String × Option String
  | [] => ([], none)
  | n :: rest =>
    if n ∈ defined then
      let r := runCalls defined rest
      (n :: r.1, r.2)
    else ([], some n)

/-- C1 (code bug): the variant-2 init body calls initFilmstripLightbox, a name
with no definition in the file (the lightbox initializer is named
initLightbox), so init raises a ReferenceError and the initGalleryNav and
initSmoothScroll controllers are never initialized: the failure of one
controller does prevent the remaining controllers from being initialized. -/
theorem c1_init_reference_error :
    runCalls definedFunctions initCallSequence =
      (["initScrollReveal", "initParallax", "initHeader", "initMobileMenu"],
        some "initFilmstripLightbox") ∧
    "initFilmstripLightbox" ∉ definedFunctions ∧
    "initGalleryNav" ∉ (runCalls definedFunctions initCallSequence).1 ∧
    "initSmoothScroll" ∉ (runCalls definedFunctions initCallSequence).1 := by
  refine ⟨?_, ?_, ?_, ?_⟩ <;> decide

end SjWebsite
